import Mathlib

/-!
Shallow embedding of `src/linkeninScraper/spiders/linkedinspider.py`.

The spider has four behavioural pieces, each embedded as a pure Lean
function over explicit page/state models:

* `errback` (source lines 167-183): the retry/backoff failure handler.
* `on_spider_closed` (lines 79-82): the end-of-run empty-run check.
* `parse_search` (lines 102-131): detail-request fan-out and pagination.
* `parse_profile` (lines 133-165): record extraction from a detail page,
  together with the `total_profiles` counter update.

Rendered documents are modelled by the results of the CSS queries the
source performs: each `.get(default=...)` becomes an `Option String`
field, each `.getall()` a `List String`.  For the pagination control the
model keeps the queried nodes themselves (tag plus attributes), because
the source's selector `button[aria-label=Next]` matches on tag and
attribute only; whether the button is disabled is visible in the node
model but not tested by the selector.

Python string operations are modelled on `List Char`: `needle in s` as
contiguous-sublist containment and `s.strip()` as removal of leading and
trailing whitespace, so that everything evaluates in the kernel.
-/

namespace LinkedInSpider

/-- Decides whether `needle` is a prefix of `haystack` (character lists). -/
def listPrefixOf : List Char → List Char → Bool
  | [], _ => true
  | _ :: _, [] => false
  | a :: as, b :: bs => a == b && listPrefixOf as bs

/-- Decides whether `needle` occurs as a contiguous sublist of the second list. -/
def listContainsSub (needle : List Char) : List Char → Bool
  | [] => listPrefixOf needle []
  | c :: rest => listPrefixOf needle (c :: rest) || listContainsSub needle rest

/-- Model of the Python expression `needle in haystack` on strings:
substring containment. -/
def strContains (haystack needle : String) : Bool :=
  listContainsSub needle.toList haystack.toList

/-- Removes leading whitespace characters from a character list. -/
def dropLeadingWs : List Char → List Char
  | [] => []
  | c :: cs => if c.isWhitespace then dropLeadingWs cs else c :: cs

/-- Model of Python `s.strip()`: drop leading and trailing whitespace. -/
def pyStrip (s : String) : String :=
  String.mk ((dropLeadingWs ((dropLeadingWs s.toList).reverse)).reverse)

/-- Model of the source idiom `sel.css(...).get(default="").strip()`:
a missing node yields the empty string, a present node yields its
stripped text. -/
def getStripped (o : Option String) : String :=
  pyStrip (o.getD "")

/-- One HTML attribute of a queried node. -/
structure HtmlAttr where
  name : String
  value : String
deriving DecidableEq

/-- An HTML node as seen by the CSS queries of the source: its tag and
its attributes. -/
structure HtmlNode where
  tag : String
  attrs : List HtmlAttr
deriving DecidableEq

/-- Does node `n` carry attribute `a` with value `v`? -/
def hasAttrVal (n : HtmlNode) (a v : String) : Bool :=
  n.attrs.any (fun x => x.name == a && x.value == v)

/-- CSS semantics of the selector `button[aria-label=Next]` used at
source line 118: it matches any `button` whose `aria-label` attribute
equals `Next`, independently of any `disabled` attribute. -/
def matchesNextSelector (n : HtmlNode) : Bool :=
  n.tag == "button" && hasAttrVal n "aria-label" "Next"

/-- Model of `sel.css("button[aria-label=Next]").get()` (line 118): the
first matching node of the page, if any. -/
def cssNextButton (nodes : List HtmlNode) : Option HtmlNode :=
  nodes.find? matchesNextSelector

/-- Whether a node carries a `disabled` attribute.  The source never
queries this; it is needed only to state spec-side claims about enabled
versus disabled controls. -/
def isDisabled (n : HtmlNode) : Bool :=
  n.attrs.any (fun x => x.name == "disabled")

/-- One result entry of the search page (`div.entity-result__item`),
modelled by the result of `entry.css("a.app-aware-link::attr(href)").get()`
at line 109: `some link` when the entry has a resolvable profile link. -/
structure ResultEntry where
  profile_link : Option String
deriving DecidableEq

/-- A rendered search page: its result entries (line 107) and the nodes
the next-button query ranges over (line 118). -/
structure SearchPage where
  results : List ResultEntry
  nodes : List HtmlNode
deriving DecidableEq

/-- The two callbacks a request can be routed to. -/
inductive PageKind
  | searchPage
  | detailPage
deriving BEq, DecidableEq

/-- One Playwright page interaction step (`playwright_page_methods`). -/
inductive PageMethod
  | waitForSelector (sel : String)
  | click (sel : String)
deriving BEq, DecidableEq

/-- A scheduled request: URL, routing kind, interaction steps, and the
`retry_times` meta counter (absent meta reads as 0, line 174). -/
structure CrawlRequest where
  url : String
  kind : PageKind
  methods : List PageMethod
  retry_times : Nat
deriving BEq, DecidableEq

/-- The detail-page request built by `response.follow(profile_link, ...)`
at lines 111-116 (relative-URL resolution abstracted to the link itself). -/
def detailRequest (link : String) : CrawlRequest :=
  { url := link, kind := PageKind.detailPage, methods := [], retry_times := 0 }

/-- The pagination advance request built at lines 120-131: same URL,
click the next control, wait for the result list. -/
def advRequest (url : String) : CrawlRequest :=
  { url := url
    kind := PageKind.searchPage
    methods := [PageMethod.click "button[aria-label=Next]",
                PageMethod.waitForSelector "ul.reusable-search__result-list"]
    retry_times := 0 }

/-- Embedding of `parse_search` (lines 102-131): one detail request per
result entry with a resolvable link (entries without one are skipped),
followed by one advance request exactly when the next-button query finds
a node. -/
def parse_search (resp_url : String) (page : SearchPage) : List CrawlRequest :=
  page.results.filterMap (fun e => e.profile_link.map detailRequest) ++
    (match cssNextButton page.nodes with
     | some _ => [advRequest resp_url]
     | none => [])

/-- The detail-page requests among a yielded batch. -/
def detailReqs (rs : List CrawlRequest) : List CrawlRequest :=
  rs.filter (fun r => r.kind == PageKind.detailPage)

/-- The pagination advance requests among a yielded batch. -/
def advanceReqs (rs : List CrawlRequest) : List CrawlRequest :=
  rs.filter (fun r => r.kind == PageKind.searchPage)

/-- One education block entry (`li.education__list-item`), modelled by
the three text queries of lines 147-149. -/
structure EducationEntry where
  school_node : Option String
  degree_node : Option String
  period_node : Option String
deriving DecidableEq

/-- A rendered detail page, modelled by the results of the anchor
queries of lines 138-143, the education entries of line 146, and the
skills texts returned by `.getall()` at line 153. -/
structure ProfilePage where
  name_node : Option String
  headline_node : Option String
  location_node : Option String
  position_node : Option String
  education_entries : List EducationEntry
  skill_nodes : List String
deriving DecidableEq

/-- One kept education dictionary (line 151). -/
structure Education where
  school : String
  degree : String
  period : String
deriving DecidableEq

/-- The extracted record dataclass `LinkedInProfile` (lines 25-34). -/
structure LinkedInProfile where
  name : String
  headline : String
  location : String
  current_position : String
  educations_in_france : List Education
  skills : List String
  profile_url : String
  scraped_at : String
deriving DecidableEq

/-- The education-loop body of lines 147-151: strip the three texts
(missing nodes default to the empty string) and keep the entry exactly
when `"France"` occurs in the school text or in the period text. -/
def eduExtract (e : EducationEntry) : Option Education :=
  if strContains (getStripped e.school_node) "France"
      || strContains (getStripped e.period_node) "France" then
    some { school := getStripped e.school_node
           degree := getStripped e.degree_node
           period := getStripped e.period_node }
  else none

/-- Embedding of `parse_profile` (lines 133-162): every anchor is
optional and defaults to the empty string, the education list is
filtered by `eduExtract`, the skills are stripped, and the record keeps
the response URL and the extraction timestamp. -/
def parse_profile (page : ProfilePage) (url now : String) : LinkedInProfile :=
  { name := getStripped page.name_node
    headline := getStripped page.headline_node
    location := getStripped page.location_node
    current_position := getStripped page.position_node
    educations_in_france := page.education_entries.filterMap eduExtract
    skills := page.skill_nodes.map pyStrip
    profile_url := url
    scraped_at := now }

/-- The spider's run statistics: `total_profiles` (line 71) is the only
counter the spider maintains. -/
structure RunStats where
  total_profiles : Nat
deriving DecidableEq

/-- The full effect of one `parse_profile` call (lines 154-165): build
the record, increment `total_profiles` by one, and yield exactly that
one record. -/
def parse_profile_step (st : RunStats) (page : ProfilePage) (url now : String) :
    RunStats × List LinkedInProfile :=
  (⟨st.total_profiles + 1⟩, [parse_profile page url now])

/-- Sequential processing of a batch of successfully rendered detail
pages by `parse_profile`, threading the counter. -/
def process_profiles (st : RunStats) :
    List (ProfilePage × String × String) → RunStats × List LinkedInProfile
  | [] => (st, [])
  | (p, u, t) :: rest =>
      let r1 := parse_profile_step st p u t
      let r2 := process_profiles r1.1 rest
      (r2.1, r1.2 ++ r2.2)

/-- The retry decision embedded in `errback`: retry after a delay, or
give up. -/
inductive RetryDecision
  | retryAfter (delay : Nat)
  | giveUp
deriving DecidableEq

/-- Embedding of `errback` (lines 167-183): when `retry_times < 3` the
handler sleeps `2 ^ retry_times` (the decision component) and yields a
copy of the request with `retry_times` incremented; otherwise it logs
and yields nothing.  The run statistics are returned unchanged in both
branches: the handler touches no counter. -/
def errback (st : RunStats) (req : CrawlRequest) :
    RunStats × RetryDecision × List CrawlRequest :=
  if req.retry_times < 3 then
    (st, RetryDecision.retryAfter (2 ^ req.retry_times),
     [{ req with retry_times := req.retry_times + 1 }])
  else
    (st, RetryDecision.giveUp, [])

/-- Embedding of `on_spider_closed` (lines 79-82): at run end, if
`total_profiles` is zero the spider raises `CloseSpider` with this
message (`some reason`); otherwise it only logs (`none`). -/
def on_spider_closed (st : RunStats) : Option String :=
  if st.total_profiles = 0 then some "No profiles scraped - shutting down" else none

/-! Concrete fixtures used in claim statements and witnesses. -/

/-- A concrete detail-page request at a given attempt count. -/
def detailReqFixture (n : Nat) : CrawlRequest :=
  { url := "https://www.linkedin.com/in/x", kind := PageKind.detailPage, methods := [], retry_times := n }

/-- A search page whose only next control carries a disabled attribute. -/
def disabledNextPage : SearchPage :=
  { results := [],
    nodes := [{ tag := "button", attrs := [⟨"aria-label", "Next"⟩, ⟨"disabled", ""⟩] }] }

/-- A search page with one linked result entry and no next control. -/
def noNextPage : SearchPage :=
  { results := [⟨some "https://www.linkedin.com/in/a"⟩], nodes := [] }

/-- A search page with three result entries, two of which have a
resolvable profile link, and an enabled next control. -/
def examplePage3 : SearchPage :=
  { results := [⟨some "https://www.linkedin.com/in/a"⟩, ⟨none⟩, ⟨some "https://www.linkedin.com/in/b"⟩],
    nodes := [{ tag := "button", attrs := [⟨"aria-label", "Next"⟩] }] }

/-- An education entry whose school text mentions France. -/
def eduFrance : EducationEntry :=
  ⟨some "École Polytechnique, France", some "MSc", some "2010-2014"⟩

/-- An education entry mentioning France in neither school nor period. -/
def eduMIT : EducationEntry :=
  ⟨some "MIT", some "BSc", some "2015-2019"⟩

/-- An education entry whose period text mentions France. -/
def eduMITexchange : EducationEntry :=
  ⟨some "MIT", some "BSc", some "2015-2019 France exchange"⟩

/-- A detail page holding exactly one education entry. -/
def mkEduPage (e : EducationEntry) : ProfilePage :=
  ⟨none, none, none, none, [e], []⟩

/-- A detail page on which every query comes back empty. -/
def emptyPage : ProfilePage :=
  ⟨none, none, none, none, [], []⟩

/-- A detail page whose headline anchor is missing while the other
anchors are present. -/
def headlineMissingPage : ProfilePage :=
  ⟨some "Jane Roe", none, some "Paris", some "Engineer", [], ["python"]⟩

/-- Content equality of two records: agreement on every field except
the scraped timestamp. -/
def contentEq (p q : LinkedInProfile) : Prop :=
  p.name = q.name ∧ p.headline = q.headline ∧ p.location = q.location ∧
  p.current_position = q.current_position ∧
  p.educations_in_france = q.educations_in_france ∧
  p.skills = q.skills ∧ p.profile_url = q.profile_url

/-! Helper lemmas about `parse_search`. -/

theorem length_filterMap_links (rs : List ResultEntry) :
    (rs.filterMap (fun e => e.profile_link.map detailRequest)).length
      = rs.countP (fun e => e.profile_link.isSome) := by
  induction rs with
  | nil => rfl
  | cons e rest ih =>
      cases h : e.profile_link <;>
        simp [List.filterMap_cons, h, ih, List.countP_cons]

theorem detailRequest_kind_search (l : String) :
    ((detailRequest l).kind == PageKind.searchPage) = false := rfl

theorem detailRequest_kind_detail (l : String) :
    ((detailRequest l).kind == PageKind.detailPage) = true := rfl

theorem advRequest_kind_search (u : String) :
    ((advRequest u).kind == PageKind.searchPage) = true := rfl

theorem advRequest_kind_detail (u : String) :
    ((advRequest u).kind == PageKind.detailPage) = false := rfl

theorem advanceReqs_details (rs : List ResultEntry) :
    advanceReqs (rs.filterMap (fun e => e.profile_link.map detailRequest)) = [] := by
  induction rs with
  | nil => rfl
  | cons e rest ih =>
      cases h : e.profile_link <;>
        simp_all [advanceReqs, List.filterMap_cons, List.filter_cons, detailRequest_kind_search] <;>
        exact ih

theorem detailReqs_details (rs : List ResultEntry) :
    detailReqs (rs.filterMap (fun e => e.profile_link.map detailRequest))
      = rs.filterMap (fun e => e.profile_link.map detailRequest) := by
  induction rs with
  | nil => rfl
  | cons e rest ih =>
      cases h : e.profile_link <;>
        simp_all [detailReqs, List.filterMap_cons, List.filter_cons, detailRequest_kind_detail] <;>
        exact ih

theorem advanceReqs_parse_search (url : String) (page : SearchPage) :
    advanceReqs (parse_search url page)
      = (match cssNextButton page.nodes with
         | some _ => [advRequest url]
         | none => []) := by
  have h1 := advanceReqs_details page.results
  unfold parse_search
  unfold advanceReqs at h1 ⊢
  rw [List.filter_append, h1]
  cases cssNextButton page.nodes <;>
    simp [List.filter_cons, advRequest_kind_search]

theorem detailReqs_parse_search (url : String) (page : SearchPage) :
    detailReqs (parse_search url page)
      = page.results.filterMap (fun e => e.profile_link.map detailRequest) := by
  have h1 := detailReqs_details page.results
  unfold parse_search
  unfold detailReqs at h1 ⊢
  rw [List.filter_append, h1]
  cases cssNextButton page.nodes <;>
    simp [List.filter_cons, advRequest_kind_detail]

theorem process_profiles_spec (pages : List (ProfilePage × String × String)) :
    ∀ st : RunStats,
      (process_profiles st pages).1.total_profiles = st.total_profiles + pages.length ∧
      (process_profiles st pages).2.length = pages.length := by
  induction pages with
  | nil => intro st; exact ⟨rfl, rfl⟩
  | cons p rest ih =>
      intro st
      obtain ⟨pg, u, t⟩ := p
      have h := ih ⟨st.total_profiles + 1⟩
      constructor
      · simp only [process_profiles, parse_profile_step]
        rw [h.1]
        simp only [List.length_cons]
        omega
      · simp only [process_profiles, parse_profile_step]
        simp [h.2]

/-- C1: for a failed request with attempt count a, the failure handler
decides Retry with delay exactly 2 ^ a and schedules one retried copy
when a is below 3, and decides GiveUp with no further attempt scheduled
when a is at least 3; the delays before give-up are 1, 2, 4, a strictly
increasing sequence. -/
theorem C1_retry_policy (st : RunStats) (req : CrawlRequest) :
    (req.retry_times < 3 →
      (errback st req).2.1 = RetryDecision.retryAfter (2 ^ req.retry_times) ∧
      (errback st req).2.2 = [{ req with retry_times := req.retry_times + 1 }]) ∧
    (3 ≤ req.retry_times →
      (errback st req).2.1 = RetryDecision.giveUp ∧ (errback st req).2.2 = []) ∧
    ((errback st { req with retry_times := 0 }).2.1 = RetryDecision.retryAfter 1 ∧
     (errback st { req with retry_times := 1 }).2.1 = RetryDecision.retryAfter 2 ∧
     (errback st { req with retry_times := 2 }).2.1 = RetryDecision.retryAfter 4 ∧
     1 < 2 ∧ 2 < 4) := by
  refine ⟨fun h => ?_, fun h => ?_, ?_, ?_, ?_, by omega, by omega⟩
  · rw [errback, if_pos h]; exact ⟨rfl, rfl⟩
  · rw [errback, if_neg (by omega)]; exact ⟨rfl, rfl⟩
  · rw [errback, if_pos (show (0:Nat) < 3 by omega)]; rfl
  · rw [errback, if_pos (show (1:Nat) < 3 by omega)]; rfl
  · rw [errback, if_pos (show (2:Nat) < 3 by omega)]; rfl

/-- Witness for C1 at attempt counts 0 and 3. -/
theorem C1_retry_policy_witness :
    (errback ⟨0⟩ (detailReqFixture 0)).2.1 = RetryDecision.retryAfter 1 ∧
    (errback ⟨0⟩ (detailReqFixture 3)).2.2 = [] := by
  constructor
  · have h := ((C1_retry_policy ⟨0⟩ (detailReqFixture 0)).1 (by decide)).1
    simpa using h
  · exact ((C1_retry_policy ⟨0⟩ (detailReqFixture 3)).2.1 (by decide)).2

/-- C2: at run end the empty-run failure signal (CloseSpider) is raised
if and only if the emitted-profile counter is zero; a run with at least
one emitted profile ends without the signal. -/
theorem C2_empty_run_flag (st : RunStats) :
    ((on_spider_closed st).isSome ↔ st.total_profiles = 0) ∧
    (1 ≤ st.total_profiles → on_spider_closed st = none) := by
  unfold on_spider_closed
  constructor
  · by_cases h : st.total_profiles = 0 <;> simp [h]
  · intro h
    rw [if_neg (by omega)]

/-- Witness for C2 at a run that emitted one profile. -/
theorem C2_empty_run_flag_witness : on_spider_closed ⟨1⟩ = none :=
  (C2_empty_run_flag ⟨1⟩).2 (by decide)

/-- C3 counterexample: at a request whose attempt count reached the
give-up threshold, the failure handler leaves the run statistics
completely unchanged — the spider maintains no
requests_failed_permanently counter, so no counter is incremented —
while it does drop the request (yields nothing further). -/
theorem C3_counterexample :
    errback ⟨7⟩ (detailReqFixture 3) = (⟨7⟩, RetryDecision.giveUp, []) := by decide

/-- C3 (amended): for every request at or past the give-up threshold,
the failure handler yields no replacement request (the request is
dropped), returns normally rather than raising any stop signal (so the
crawl continues with remaining queued work), and leaves the run
statistics unchanged; the spider has no permanent-failure counter to
increment. -/
theorem C3_give_up_drops (st : RunStats) (req : CrawlRequest)
    (h : 3 ≤ req.retry_times) :
    errback st req = (st, RetryDecision.giveUp, []) := by
  rw [errback, if_neg (by omega)]

/-- Witness for C3 (amended) at attempt count 4. -/
theorem C3_give_up_drops_witness :
    errback ⟨2⟩ (detailReqFixture 4) = (⟨2⟩, RetryDecision.giveUp, []) :=
  C3_give_up_drops ⟨2⟩ (detailReqFixture 4) (by decide)

/-- C4 counterexample: a search page whose only next control carries the
disabled attribute still yields one advance request, because the
selector matches on tag and aria-label only; the claim that a disabled
next-control yields zero advance requests is false on the code. -/
theorem C4_counterexample :
    disabledNextPage.nodes.all isDisabled = true ∧
    (advanceReqs (parse_search "https://www.linkedin.com/search" disabledNextPage)).length = 1 := by
  decide

/-- C4 (amended): parse_search returns exactly one advance request when
a node matching the next selector is present — enabled or disabled —
and zero when no such node exists; absence of the matching node is the
sole pagination termination condition, and the decision is independent
of the result entries, so an empty detail list alone never ends
pagination. -/
theorem C4_pagination_advance (url : String) (page : SearchPage) :
    (advanceReqs (parse_search url page)).length
        = (if (cssNextButton page.nodes).isSome then 1 else 0) ∧
    (cssNextButton page.nodes = none → advanceReqs (parse_search url page) = []) ∧
    advanceReqs (parse_search url page)
        = advanceReqs (parse_search url { page with results := [] }) := by
  have h := advanceReqs_parse_search url page
  have h2 := advanceReqs_parse_search url { page with results := [] }
  refine ⟨?_, ?_, ?_⟩ <;> cases hb : cssNextButton page.nodes <;> simp_all

/-- Witness for C4 (amended) at a page with no next control. -/
theorem C4_pagination_advance_witness :
    advanceReqs (parse_search "https://www.linkedin.com/search" noNextPage) = [] :=
  (C4_pagination_advance "https://www.linkedin.com/search" noNextPage).2.1 (by decide)

/-- C5: parse_search builds exactly one detail request per result entry
with a resolvable profile link, skipping the others; on the concrete
page with three entries, two of them linked, and an enabled next
control, it yields exactly two detail requests and one advance
request. -/
theorem C5_detail_fanout (url : String) (page : SearchPage) :
    (detailReqs (parse_search url page)).length
        = page.results.countP (fun e => e.profile_link.isSome) ∧
    (detailReqs (parse_search "https://www.linkedin.com/search" examplePage3)).length = 2 ∧
    (advanceReqs (parse_search "https://www.linkedin.com/search" examplePage3)).length = 1 ∧
    examplePage3.results.length = 3 ∧
    examplePage3.nodes.all (fun n => !isDisabled n) = true := by
  refine ⟨?_, by decide, by decide, by decide, by decide⟩
  rw [detailReqs_parse_search, length_filterMap_links]

/-- C6: an education entry is kept in the extracted record exactly when
the string France occurs as a substring of its (stripped) school text or
period text; in particular a school mentioning France is kept, an entry
with school MIT and period 2015-2019 is dropped, and the same school
with a period mentioning France is kept. -/
theorem C6_education_filter (page : ProfilePage) (url now : String) :
    (∀ ed ∈ (parse_profile page url now).educations_in_france,
        (strContains ed.school "France" || strContains ed.period "France") = true) ∧
    (∀ e ∈ page.education_entries,
        (strContains (getStripped e.school_node) "France"
          || strContains (getStripped e.period_node) "France") = true →
        (⟨getStripped e.school_node, getStripped e.degree_node,
            getStripped e.period_node⟩ : Education)
          ∈ (parse_profile page url now).educations_in_france) ∧
    (parse_profile (mkEduPage eduFrance) url now).educations_in_france
        = [⟨"École Polytechnique, France", "MSc", "2010-2014"⟩] ∧
    (parse_profile (mkEduPage eduMIT) url now).educations_in_france = [] ∧
    (parse_profile (mkEduPage eduMITexchange) url now).educations_in_france
        = [⟨"MIT", "BSc", "2015-2019 France exchange"⟩] := by
  refine ⟨?_, ?_, rfl, rfl, rfl⟩
  · intro ed hed
    simp only [parse_profile, List.mem_filterMap] at hed
    obtain ⟨e, -, he⟩ := hed
    unfold eduExtract at he
    split at he
    · rename_i hc
      injection he with he2
      subst he2
      exact hc
    · exact Option.noConfusion he
  · intro e he hc
    simp only [parse_profile, List.mem_filterMap]
    refine ⟨e, he, ?_⟩
    unfold eduExtract
    rw [if_pos hc]

/-- Witness for C6 at the concrete France entry. -/
theorem C6_education_filter_witness :
    (⟨getStripped eduFrance.school_node, getStripped eduFrance.degree_node,
        getStripped eduFrance.period_node⟩ : Education)
      ∈ (parse_profile (mkEduPage eduFrance)
          "https://www.linkedin.com/in/a" "2026-10-12 00:00:00").educations_in_france :=
  (C6_education_filter (mkEduPage eduFrance)
      "https://www.linkedin.com/in/a" "2026-10-12 00:00:00").2.1
    eduFrance (by decide) (by decide)

/-- C7: extraction is total over missing markup: a missing structural
anchor yields the empty string for that field and never an error; a page
missing only the headline anchor yields a record with empty headline and
every other field extracted as usual; a page on which every query comes
back empty still yields exactly one emitted record, carrying the source
URL and empty fields. -/
theorem C7_partial_markup (page : ProfilePage) (url now : String) :
    (page.name_node = none → (parse_profile page url now).name = "") ∧
    (page.headline_node = none → (parse_profile page url now).headline = "") ∧
    (page.location_node = none → (parse_profile page url now).location = "") ∧
    (page.position_node = none → (parse_profile page url now).current_position = "") ∧
    (page.headline_node = none →
      (parse_profile page url now).name = getStripped page.name_node ∧
      (parse_profile page url now).location = getStripped page.location_node ∧
      (parse_profile page url now).current_position = getStripped page.position_node ∧
      (parse_profile page url now).educations_in_france
          = page.education_entries.filterMap eduExtract ∧
      (parse_profile page url now).skills = page.skill_nodes.map pyStrip) ∧
    (parse_profile_step ⟨0⟩ emptyPage url now).2 = [parse_profile emptyPage url now] ∧
    (parse_profile emptyPage url now).profile_url = url ∧
    (parse_profile emptyPage url now).name = "" ∧
    (parse_profile emptyPage url now).headline = "" ∧
    (parse_profile emptyPage url now).location = "" ∧
    (parse_profile emptyPage url now).current_position = "" ∧
    (parse_profile emptyPage url now).educations_in_france = [] ∧
    (parse_profile emptyPage url now).skills = [] := by
  refine ⟨fun h => ?_, fun h => ?_, fun h => ?_, fun h => ?_,
    fun h => ⟨rfl, rfl, rfl, rfl, rfl⟩, rfl, rfl, rfl, rfl, rfl, rfl, rfl, rfl⟩
  · show getStripped page.name_node = ""
    rw [h]; decide
  · show getStripped page.headline_node = ""
    rw [h]; decide
  · show getStripped page.location_node = ""
    rw [h]; decide
  · show getStripped page.position_node = ""
    rw [h]; decide

/-- Witness for C7 at the page whose headline anchor is missing. -/
theorem C7_partial_markup_witness :
    (parse_profile headlineMissingPage "https://www.linkedin.com/in/a" "t").headline = "" ∧
    (parse_profile headlineMissingPage "https://www.linkedin.com/in/a" "t").name
        = getStripped headlineMissingPage.name_node :=
  ⟨(C7_partial_markup headlineMissingPage "https://www.linkedin.com/in/a" "t").2.1 rfl,
   ((C7_partial_markup headlineMissingPage "https://www.linkedin.com/in/a" "t").2.2.2.2.1 rfl).1⟩

/-- C8: every emitted record carries the detail page URL in its
profile_url field, and each anchor text field is always the total
stripped query result — the empty string rather than an absent value
whenever the markup gave nothing. -/
theorem C8_record_fields (page : ProfilePage) (url now : String) :
    (parse_profile page url now).profile_url = url ∧
    (parse_profile page url now).name = getStripped page.name_node ∧
    (parse_profile page url now).headline = getStripped page.headline_node ∧
    (parse_profile page url now).location = getStripped page.location_node ∧
    (parse_profile page url now).current_position = getStripped page.position_node ∧
    (page.name_node = none → (parse_profile page url now).name = "") ∧
    (page.headline_node = none → (parse_profile page url now).headline = "") ∧
    (page.location_node = none → (parse_profile page url now).location = "") ∧
    (page.position_node = none → (parse_profile page url now).current_position = "") := by
  refine ⟨rfl, rfl, rfl, rfl, rfl, fun h => ?_, fun h => ?_, fun h => ?_, fun h => ?_⟩
  · show getStripped page.name_node = ""
    rw [h]; decide
  · show getStripped page.headline_node = ""
    rw [h]; decide
  · show getStripped page.location_node = ""
    rw [h]; decide
  · show getStripped page.position_node = ""
    rw [h]; decide

/-- Witness for C8 at the all-empty page. -/
theorem C8_record_fields_witness :
    (parse_profile emptyPage "https://www.linkedin.com/in/b" "t").profile_url
        = "https://www.linkedin.com/in/b" ∧
    (parse_profile emptyPage "https://www.linkedin.com/in/b" "t").name = "" :=
  ⟨(C8_record_fields emptyPage "https://www.linkedin.com/in/b" "t").1,
   (C8_record_fields emptyPage "https://www.linkedin.com/in/b" "t").2.2.2.2.2.1 rfl⟩

/-- C9: extraction is deterministic modulo the timestamp: two runs of
the extractor on the same rendered page and source URL agree on every
field except scraped_at, which records the extraction time passed in. -/
theorem C9_deterministic (page : ProfilePage) (url t1 t2 : String) :
    contentEq (parse_profile page url t1) (parse_profile page url t2) ∧
    (parse_profile page url t1).scraped_at = t1 :=
  ⟨⟨rfl, rfl, rfl, rfl, rfl, rfl, rfl⟩, rfl⟩

/-- C10: every processed detail page yields exactly one record — also
when every query comes back empty — and increments the total_profiles
counter by exactly one, so after processing a batch of successfully
rendered detail pages the counter equals its start value plus the number
of pages, and the number of emitted records equals the number of
pages. -/
theorem C10_counter_invariant (st : RunStats) (page : ProfilePage) (url now : String)
    (pages : List (ProfilePage × String × String)) :
    (parse_profile_step st page url now).2.length = 1 ∧
    (parse_profile_step st page url now).1.total_profiles = st.total_profiles + 1 ∧
    (process_profiles st pages).1.total_profiles = st.total_profiles + pages.length ∧
    (process_profiles st pages).2.length = pages.length ∧
    (parse_profile_step ⟨0⟩ emptyPage "https://www.linkedin.com/in/a" "t").2.length = 1 :=
  ⟨rfl, rfl, (process_profiles_spec pages st).1, (process_profiles_spec pages st).2, rfl⟩

end LinkedInSpider
